import Mathlib

/-!
Verification of the user credential handling core of the gira-games/api
repository, as described by its specification.

The repository sources under verification are:
- the server user-handler tests (TestUserCreate, TestUserCreateValidationError,
  TestUserCreateDBError, TestUserLogin, TestUserLoginValidationError,
  TestUserLoginServiceError), which pin down the observable behaviour of the
  HTTP user handlers through gomock expectations and status-code assertions;
- the database migration bootstrap (Init, InitFromDirectory).

The handler bodies, the credential validator, the password hasher and the
token issuer themselves are not among the sources; where a claim depends on
them they are modelled from the spec, faithful to its words, and amended
exactly where a source test forces a different behaviour (the gomock
expectation in TestUserCreate shows the user handed to the Store insert is
the inbound user unchanged, plaintext password included).
-/

/-- The User identity record (spec section 3; mirrored by the test fixtures in
src/unnamed/part_000: ID, Username, Email, Password, HashedPassword).
HashedPassword is a byte slice in Go; it is modelled as a String, with the
empty string standing for the absent (nil) value. -/
structure User where
  id : String
  username : String
  email : String
  password : String
  hashedPassword : String
deriving DecidableEq, Repr

/-- The fields a ValidationError can report (spec section 4.1). -/
inductive UserField where
  | username
  | email
  | password
  | id
  | hashedPassword
deriving DecidableEq, Repr

/-- Modelled from the spec: the Credential Validator is absent from src.
validateForCreate fails if username is empty, email is empty, password is
empty, id is non-empty, or hashedPassword is non-empty; each violated field
is reported distinctly. The result is the list of violated fields;
validation succeeds exactly when the list is empty. -/
def validateForCreate (u : User) : List UserField :=
  (if u.username = "" then [UserField.username] else []) ++
  (if u.email = "" then [UserField.email] else []) ++
  (if u.password = "" then [UserField.password] else []) ++
  (if u.id = "" then [] else [UserField.id]) ++
  (if u.hashedPassword = "" then [] else [UserField.hashedPassword])

/-- Modelled from the spec: the Credential Validator is absent from src.
validateForLogin fails if email is empty or password is empty; it does not
check username, id or hashedPassword. -/
def validateForLogin (u : User) : List UserField :=
  (if u.email = "" then [UserField.email] else []) ++
  (if u.password = "" then [UserField.password] else [])

/-- Modelled from the spec: the Password Hasher is absent from src. A
bcrypt-class hash embeds its parameters and salt in the output; the model
keeps the contract that matters to the claims: hashing is deterministic
per salt, the output determines the plaintext it was derived from
(injectivity, standing in for collision freedom), and the output is never
empty (a missing hash is the empty string and matches nothing). -/
def hashPassword (p : String) : String :=
  "$2a$10$salt$" ++ p

/-- Modelled from the spec: the Password Hasher is absent from src.
verify returns a Bool: true exactly when the candidate plaintext hashes to
the stored value; a mismatch and a missing (empty) hash both yield false,
and no exception distinguishes the two cases (the return type is Bool). -/
def verify (h : String) (p : String) : Bool :=
  h == hashPassword p

/-- The closed error taxonomy of the core (spec section 7). -/
inductive ServiceError where
  | validation (fields : List UserField)
  | emailConflict
  | usernameConflict
  | authenticationFailed
  | storage
deriving DecidableEq, Repr

/-- Client fault maps to a 400-class HTTP response, server fault to a
500-class one (spec section 6). -/
inductive FaultClass where
  | client
  | server
deriving DecidableEq, Repr

/-- Modelled from the spec (sections 6 and 7): the HTTP boundary maps
validation errors, conflicts and authentication failures to client faults
and storage or signing faults to server faults. Corroborated by the status
codes asserted in TestUserCreateValidationError, TestUserCreateDBError,
TestUserLoginValidationError and TestUserLoginServiceError. -/
def classify : ServiceError → FaultClass
  | ServiceError.validation _ => FaultClass.client
  | ServiceError.emailConflict => FaultClass.client
  | ServiceError.usernameConflict => FaultClass.client
  | ServiceError.authenticationFailed => FaultClass.client
  | ServiceError.storage => FaultClass.server

/-- Outcome of the User Store insert (spec section 6: typed conflicts for
email and username uniqueness, any other failure untyped). Mirrored by the
cases of TestUserCreateDBError. -/
inductive InsertResult where
  | ok (persisted : User)
  | emailConflict
  | usernameConflict
  | failure
deriving Repr

/-- Outcome of the User Store lookup by email (spec section 6). -/
inductive LookupResult where
  | found (stored : User)
  | notFound
  | failure
deriving Repr

/-- Outcome of the Token Issuer issue call (spec section 4.3). -/
inductive IssueResult where
  | ok (token : String)
  | failure
deriving Repr

/-- The login success payload, mirroring models.UserResponse as used by
TestUserLogin: it carries a token and nothing else. -/
structure UserResponse where
  token : String
deriving DecidableEq, Repr

/-- Modelled from the spec: the Account Service Create operation (the handler
body is absent from src), amended where the source tests constrain it.
Validation gates the Store call (TestUserCreateValidationError runs with a
nil store and still answers 400, so the Store is not touched on validation
failure). Per the gomock expectation of TestUserCreate at
src/unnamed/part_000 lines 40-42, the user handed to the Store insert is the
inbound user unchanged, plaintext password still populated and hashed
password empty; hashing happens inside the Store, not before the call.
Conflict and failure outcomes of the insert are mapped per
TestUserCreateDBError and spec section 4.4; on success the persisted record
is returned with both secret fields cleared (spec section 4.4 step 5).
The second component is the list of users handed to the Store insert. -/
def create (insert : User → InsertResult) (u : User) :
    Except ServiceError User × List User :=
  match validateForCreate u with
  | f :: fs => (Except.error (ServiceError.validation (f :: fs)), [])
  | [] =>
    match insert u with
    | InsertResult.ok persisted =>
        (Except.ok { persisted with password := "", hashedPassword := "" }, [u])
    | InsertResult.emailConflict => (Except.error ServiceError.emailConflict, [u])
    | InsertResult.usernameConflict => (Except.error ServiceError.usernameConflict, [u])
    | InsertResult.failure => (Except.error ServiceError.storage, [u])

/-- Modelled from the spec: the Account Service Create operation exactly as
the spec words it (section 4.4): hash the password via the Hasher, clear the
plaintext and set hashedPassword BEFORE calling the Store insert. Kept as
the spec-side definition to compare against the source-constrained
definition create above. -/
def specCreate (insert : User → InsertResult) (u : User) :
    Except ServiceError User × List User :=
  match validateForCreate u with
  | f :: fs => (Except.error (ServiceError.validation (f :: fs)), [])
  | [] =>
    let toStore : User := { u with password := "", hashedPassword := hashPassword u.password }
    match insert toStore with
    | InsertResult.ok persisted =>
        (Except.ok { persisted with password := "", hashedPassword := "" }, [toStore])
    | InsertResult.emailConflict => (Except.error ServiceError.emailConflict, [toStore])
    | InsertResult.usernameConflict => (Except.error ServiceError.usernameConflict, [toStore])
    | InsertResult.failure => (Except.error ServiceError.storage, [toStore])

/-- Modelled from the spec: the Account Service Authenticate operation (the
handler body is absent from src; the tests in TestUserLogin,
TestUserLoginValidationError and TestUserLoginServiceError corroborate the
validation gate, the token pass-through and the server-fault mapping of
issuer and untyped store failures). Steps per spec section 4.4: validate,
look the user up by email (not-found folds into the generic authentication
failure; any other store failure is a server fault), verify the password
against the stored hashPassword (mismatch is the same generic authentication
failure), then issue a token for the stored user id (issuer failure is a
server fault). The second component is the list of emails looked up in the
Store. -/
def authenticate (findByEmail : String → LookupResult)
    (issue : String → IssueResult) (u : User) :
    Except ServiceError String × List String :=
  match validateForLogin u with
  | f :: fs => (Except.error (ServiceError.validation (f :: fs)), [])
  | [] =>
    match findByEmail u.email with
    | LookupResult.notFound => (Except.error ServiceError.authenticationFailed, [u.email])
    | LookupResult.failure => (Except.error ServiceError.storage, [u.email])
    | LookupResult.found stored =>
      if verify stored.hashedPassword u.password then
        match issue stored.id with
        | IssueResult.ok token => (Except.ok token, [u.email])
        | IssueResult.failure => (Except.error ServiceError.storage, [u.email])
      else (Except.error ServiceError.authenticationFailed, [u.email])

/-- The fixture user of the server tests (src/unnamed/part_000 lines 18-22):
username test, email test@test.com, plaintext password set, no id, no hashed
password. -/
def expectedUser : User :=
  { id := ""
    username := "test"
    email := "test@test.com"
    password := "t3$T123"
    hashedPassword := "" }

/-- The argument the gomock expectation of TestUserCreate
(src/unnamed/part_000 lines 40-42) requires the Store insert to receive:
exactly expectedUser, matched by deep equality. The test passing means the
create path hands this very record, plaintext password included, to the
Store. -/
def insertArgInTestUserCreate : User := expectedUser

/-- From src/unnamed/part_001: the goose command the migration bootstrap
runs. -/
def upCommand : String := "up"

/-- From src/unnamed/part_001, InitFromDirectory: open the database
connection via NewDB (absent from src, passed as an oracle); on error return
that error unchanged. Otherwise run the migrations via goose.Run (external,
passed as an oracle) with the up command and the given directory, returning
its error if any. The second component logs each goose.Run invocation as the
pair of the command and the directory it was given. -/
def InitFromDirectory {Opts DBConn E : Type} (newDB : Opts → Except E DBConn)
    (gooseRun : String → DBConn → String → Option E)
    (opts : Opts) (sqlDirectory : String) : Option E × List (String × String) :=
  match newDB opts with
  | Except.error e => (some e, [])
  | Except.ok db =>
    match gooseRun upCommand db sqlDirectory with
    | some e => (some e, [(upCommand, sqlDirectory)])
    | none => (none, [(upCommand, sqlDirectory)])

/-- From src/unnamed/part_001, Init: runs InitFromDirectory with the default
./sql directory. -/
def Init {Opts DBConn E : Type} (newDB : Opts → Except E DBConn)
    (gooseRun : String → DBConn → String → Option E)
    (opts : Opts) : Option E × List (String × String) :=
  InitFromDirectory newDB gooseRun opts "./sql"

/-! ## Helper lemmas -/

theorem validateForCreate_eq_nil_iff (u : User) :
    validateForCreate u = [] ↔
      u.username ≠ "" ∧ u.email ≠ "" ∧ u.password ≠ "" ∧
        u.id = "" ∧ u.hashedPassword = "" := by
  unfold validateForCreate
  by_cases h1 : u.username = "" <;> by_cases h2 : u.email = "" <;>
    by_cases h3 : u.password = "" <;> by_cases h4 : u.id = "" <;>
      by_cases h5 : u.hashedPassword = "" <;> simp [h1, h2, h3, h4, h5]

theorem validateForLogin_eq_nil_iff (u : User) :
    validateForLogin u = [] ↔ u.email ≠ "" ∧ u.password ≠ "" := by
  unfold validateForLogin
  by_cases h1 : u.email = "" <;> by_cases h2 : u.password = "" <;>
    simp [h1, h2]

theorem hashPassword_injective : Function.Injective hashPassword := by
  intro p q h
  unfold hashPassword at h
  have hd : "$2a$10$salt$".data ++ p.data = "$2a$10$salt$".data ++ q.data :=
    congrArg String.data h
  exact String.ext (List.append_cancel_left hd)

theorem hashPassword_ne_empty (p : String) : hashPassword p ≠ "" := by
  intro h
  have hd : "$2a$10$salt$".data ++ p.data = ([] : List Char) :=
    congrArg String.data h
  simp at hd

/-! ## Claim theorems -/

/-- C1 (counterexample): in the very scenario of TestUserCreate, the one
record handed to the Store insert is expectedUser itself, whose plaintext
password is still populated ("t3$T123") and whose hashedPassword is empty,
so the claim that the plaintext is cleared and hashedPassword set before the
insert is false; the spec-worded variant specCreate would hand a different
record, one the gomock expectation of the source test would reject. -/
theorem testUserCreate_insert_gets_plaintext :
    (create (fun v => InsertResult.ok v) expectedUser).2 = [expectedUser] ∧
    insertArgInTestUserCreate = expectedUser ∧
    insertArgInTestUserCreate.password = "t3$T123" ∧
    insertArgInTestUserCreate.hashedPassword = "" ∧
    ¬ (insertArgInTestUserCreate.password = "" ∧
        insertArgInTestUserCreate.hashedPassword ≠ "") ∧
    (specCreate (fun v => InsertResult.ok v) expectedUser).2 ≠
      [insertArgInTestUserCreate] := by
  refine ⟨by decide, rfl, rfl, rfl, by decide, by decide⟩

/-- C1 (amended): for every create call that passes validation, the record
handed to the Store insert is the inbound user unchanged: its plaintext
password is populated and its hashedPassword is empty (hashing happens
inside the Store insert, not before the call), so exactly one of the two
fields is populated, and it is the plaintext one. -/
theorem create_hands_inbound_user_to_store :
    ∀ (insert : User → InsertResult) (u : User),
      validateForCreate u = [] →
      (create insert u).2 = [u] ∧ u.password ≠ "" ∧ u.hashedPassword = "" := by
  intro insert u hval
  obtain ⟨-, -, hp, -, hh⟩ := (validateForCreate_eq_nil_iff u).mp hval
  refine ⟨?_, hp, hh⟩
  unfold create
  rw [hval]
  cases insert u <;> rfl

/-- Witness for create_hands_inbound_user_to_store at the fixture user of
TestUserCreate. -/
theorem create_hands_inbound_user_to_store_witness :
    validateForCreate expectedUser = [] ∧
    ((create (fun v => InsertResult.ok v) expectedUser).2 = [expectedUser] ∧
      expectedUser.password ≠ "" ∧ expectedUser.hashedPassword = "") :=
  ⟨by decide,
    create_hands_inbound_user_to_store (fun v => InsertResult.ok v) expectedUser
      (by decide)⟩

/-- C3: for every inbound create request with empty username, empty email,
empty password, non-empty id or non-empty hashedPassword, create returns a
ValidationError (a client fault) and hands nothing to the Store; for every
inbound login request with empty email or empty password, authenticate
returns a ValidationError and performs no Store lookup. -/
theorem validation_blocks_store :
    ∀ (insert : User → InsertResult) (findByEmail : String → LookupResult)
      (issue : String → IssueResult) (u v : User),
      (u.username = "" ∨ u.email = "" ∨ u.password = "" ∨
        u.id ≠ "" ∨ u.hashedPassword ≠ "") →
      (v.email = "" ∨ v.password = "") →
      validateForCreate u ≠ [] ∧
      (create insert u).1 =
        Except.error (ServiceError.validation (validateForCreate u)) ∧
      (create insert u).2 = [] ∧
      validateForLogin v ≠ [] ∧
      (authenticate findByEmail issue v).1 =
        Except.error (ServiceError.validation (validateForLogin v)) ∧
      (authenticate findByEmail issue v).2 = [] ∧
      classify (ServiceError.validation (validateForCreate u)) = FaultClass.client ∧
      classify (ServiceError.validation (validateForLogin v)) = FaultClass.client := by
  intro insert findByEmail issue u v hu hv
  have hcne : validateForCreate u ≠ [] := by
    intro hnil
    obtain ⟨h1, h2, h3, h4, h5⟩ := (validateForCreate_eq_nil_iff u).mp hnil
    rcases hu with h | h | h | h | h
    · exact h1 h
    · exact h2 h
    · exact h3 h
    · exact h h4
    · exact h h5
  have hlne : validateForLogin v ≠ [] := by
    intro hnil
    obtain ⟨h1, h2⟩ := (validateForLogin_eq_nil_iff v).mp hnil
    rcases hv with h | h
    · exact h1 h
    · exact h2 h
  obtain ⟨f, fs, hfs⟩ := List.exists_cons_of_ne_nil hcne
  obtain ⟨g, gs, hgs⟩ := List.exists_cons_of_ne_nil hlne
  refine ⟨hcne, ?_, ?_, hlne, ?_, ?_, rfl, rfl⟩ <;>
    first
      | (unfold create; rw [hfs])
      | (unfold authenticate; rw [hgs])

/-- Witness for validation_blocks_store at the "No username" case of
TestUserCreateValidationError and the "No password" case of
TestUserLoginValidationError. -/
theorem validation_blocks_store_witness :
    ({ id := "", username := "", email := "test@test.com", password := "t3$t",
        hashedPassword := "" } : User).username = "" ∧
    ({ id := "", username := "", email := "test@mail.com", password := "",
        hashedPassword := "" } : User).password = "" ∧
    (create (fun _ => InsertResult.failure)
        { id := "", username := "", email := "test@test.com", password := "t3$t",
          hashedPassword := "" }).2 = [] ∧
    (authenticate (fun _ => LookupResult.notFound) (fun _ => IssueResult.failure)
        { id := "", username := "", email := "test@mail.com", password := "",
          hashedPassword := "" }).2 = [] := by
  have h := validation_blocks_store (fun _ => InsertResult.failure)
    (fun _ => LookupResult.notFound) (fun _ => IssueResult.failure)
    { id := "", username := "", email := "test@test.com", password := "t3$t",
      hashedPassword := "" }
    { id := "", username := "", email := "test@mail.com", password := "",
      hashedPassword := "" }
    (Or.inl rfl) (Or.inr rfl)
  exact ⟨rfl, rfl, h.2.2.1, h.2.2.2.2.2.1⟩

/-- C9: validateForCreate reports each violated field distinctly: a field is
in the returned ValidationError exactly when its rule is violated, and the
report contains no duplicates, so the caller can tell which specific fields
failed. -/
theorem validateForCreate_reports_each_field :
    ∀ u : User,
      (UserField.username ∈ validateForCreate u ↔ u.username = "") ∧
      (UserField.email ∈ validateForCreate u ↔ u.email = "") ∧
      (UserField.password ∈ validateForCreate u ↔ u.password = "") ∧
      (UserField.id ∈ validateForCreate u ↔ u.id ≠ "") ∧
      (UserField.hashedPassword ∈ validateForCreate u ↔ u.hashedPassword ≠ "") ∧
      (validateForCreate u).Nodup := by
  intro u
  unfold validateForCreate
  by_cases h1 : u.username = "" <;> by_cases h2 : u.email = "" <;>
    by_cases h3 : u.password = "" <;> by_cases h4 : u.id = "" <;>
      by_cases h5 : u.hashedPassword = "" <;> simp [h1, h2, h3, h4, h5]

/-- C2: a lookup that fails because the email does not exist and a lookup
that succeeds but is followed by a password mismatch yield the very same
generic AuthenticationFailed error, classified as a client fault, so the two
outcomes are indistinguishable to the caller. -/
theorem authenticate_enumeration_resistance :
    ∀ (fb1 fb2 : String → LookupResult) (issue : String → IssueResult)
      (u stored : User),
      validateForLogin u = [] →
      fb1 u.email = LookupResult.notFound →
      fb2 u.email = LookupResult.found stored →
      verify stored.hashedPassword u.password = false →
      (authenticate fb1 issue u).1 =
        Except.error ServiceError.authenticationFailed ∧
      (authenticate fb2 issue u).1 =
        Except.error ServiceError.authenticationFailed ∧
      (authenticate fb1 issue u).1 = (authenticate fb2 issue u).1 ∧
      classify ServiceError.authenticationFailed = FaultClass.client := by
  intro fb1 fb2 issue u stored hval h1 h2 hver
  have e1 : (authenticate fb1 issue u).1 =
      Except.error ServiceError.authenticationFailed := by
    simp [authenticate, hval, h1]
  have e2 : (authenticate fb2 issue u).1 =
      Except.error ServiceError.authenticationFailed := by
    simp [authenticate, hval, h2, hver]
  exact ⟨e1, e2, e1.trans e2.symm, rfl⟩

/-- Witness for authenticate_enumeration_resistance: the fixture user of the
login tests against a store that does not know the email, and against a
store that knows it but holds the hash of a different password. -/
theorem authenticate_enumeration_resistance_witness :
    validateForLogin expectedUser = [] ∧
    verify (hashPassword "0ther") expectedUser.password = false ∧
    ((authenticate (fun _ => LookupResult.notFound) (fun _ => IssueResult.failure)
        expectedUser).1 = Except.error ServiceError.authenticationFailed ∧
      (authenticate
          (fun _ => LookupResult.found
            { id := "user-1", username := "test", email := "test@test.com",
              password := "", hashedPassword := hashPassword "0ther" })
          (fun _ => IssueResult.failure) expectedUser).1 =
        Except.error ServiceError.authenticationFailed ∧
      (authenticate (fun _ => LookupResult.notFound) (fun _ => IssueResult.failure)
          expectedUser).1 =
        (authenticate
            (fun _ => LookupResult.found
              { id := "user-1", username := "test", email := "test@test.com",
                password := "", hashedPassword := hashPassword "0ther" })
            (fun _ => IssueResult.failure) expectedUser).1 ∧
      classify ServiceError.authenticationFailed = FaultClass.client) :=
  ⟨by decide, by decide,
    authenticate_enumeration_resistance (fun _ => LookupResult.notFound)
      (fun _ => LookupResult.found
        { id := "user-1", username := "test", email := "test@test.com",
          password := "", hashedPassword := hashPassword "0ther" })
      (fun _ => IssueResult.failure) expectedUser
      { id := "user-1", username := "test", email := "test@test.com",
        password := "", hashedPassword := hashPassword "0ther" }
      (by decide) rfl rfl (by decide)⟩

/-- C4: when the Store insert fails, an EmailConflict and a UsernameConflict
are surfaced as the corresponding typed conflict errors, both client faults
and distinguishable from one another, while any other store failure is
surfaced as the opaque StorageError server fault; create performs exactly
one insert call (no retry). -/
theorem create_store_error_mapping :
    ∀ (u : User) (ins1 ins2 ins3 : User → InsertResult),
      validateForCreate u = [] →
      ins1 u = InsertResult.emailConflict →
      ins2 u = InsertResult.usernameConflict →
      ins3 u = InsertResult.failure →
      (create ins1 u).1 = Except.error ServiceError.emailConflict ∧
      classify ServiceError.emailConflict = FaultClass.client ∧
      (create ins2 u).1 = Except.error ServiceError.usernameConflict ∧
      classify ServiceError.usernameConflict = FaultClass.client ∧
      (create ins3 u).1 = Except.error ServiceError.storage ∧
      classify ServiceError.storage = FaultClass.server ∧
      ServiceError.emailConflict ≠ ServiceError.usernameConflict ∧
      (create ins1 u).2 = [u] ∧ (create ins2 u).2 = [u] ∧ (create ins3 u).2 = [u] := by
  intro u ins1 ins2 ins3 hval h1 h2 h3
  refine ⟨?_, rfl, ?_, rfl, ?_, rfl, by decide, ?_, ?_, ?_⟩
  · simp [create, hval, h1]
  · simp [create, hval, h2]
  · simp [create, hval, h3]
  · simp [create, hval, h1]
  · simp [create, hval, h2]
  · simp [create, hval, h3]

/-- Witness for create_store_error_mapping at the fixture user of
TestUserCreateDBError, one store per error case. -/
theorem create_store_error_mapping_witness :
    validateForCreate expectedUser = [] ∧
    ((create (fun _ => InsertResult.emailConflict) expectedUser).1 =
        Except.error ServiceError.emailConflict ∧
      classify ServiceError.emailConflict = FaultClass.client ∧
      (create (fun _ => InsertResult.usernameConflict) expectedUser).1 =
        Except.error ServiceError.usernameConflict ∧
      classify ServiceError.usernameConflict = FaultClass.client ∧
      (create (fun _ => InsertResult.failure) expectedUser).1 =
        Except.error ServiceError.storage ∧
      classify ServiceError.storage = FaultClass.server ∧
      ServiceError.emailConflict ≠ ServiceError.usernameConflict ∧
      (create (fun _ => InsertResult.emailConflict) expectedUser).2 = [expectedUser] ∧
      (create (fun _ => InsertResult.usernameConflict) expectedUser).2 = [expectedUser] ∧
      (create (fun _ => InsertResult.failure) expectedUser).2 = [expectedUser]) :=
  ⟨by decide,
    create_store_error_mapping expectedUser (fun _ => InsertResult.emailConflict)
      (fun _ => InsertResult.usernameConflict) (fun _ => InsertResult.failure)
      (by decide) rfl rfl rfl⟩

/-- C5: every successful create call returns the persisted record with both
password and hashedPassword cleared, and with the username and email of the
inbound request (given that the Store preserves them on insert, as the spec
section 6 contract and TestUserCreate assume); secrets are never echoed
back. -/
theorem create_success_response :
    ∀ (insert : User → InsertResult) (u persisted : User),
      validateForCreate u = [] →
      insert u = InsertResult.ok persisted →
      persisted.username = u.username →
      persisted.email = u.email →
      ∃ r : User, (create insert u).1 = Except.ok r ∧
        r.password = "" ∧ r.hashedPassword = "" ∧
        r.username = u.username ∧ r.email = u.email := by
  intro insert u persisted hval hins hu he
  refine ⟨{ persisted with password := "", hashedPassword := "" },
    ?_, rfl, rfl, hu, he⟩
  simp [create, hval, hins]

/-- Witness for create_success_response at the scenario of TestUserCreate:
the store answers with the fixture user itself. -/
theorem create_success_response_witness :
    validateForCreate expectedUser = [] ∧
    (∃ r : User,
      (create (fun _ => InsertResult.ok expectedUser) expectedUser).1 =
        Except.ok r ∧
      r.password = "" ∧ r.hashedPassword = "" ∧
      r.username = expectedUser.username ∧ r.email = expectedUser.email) :=
  ⟨by decide,
    create_success_response (fun _ => InsertResult.ok expectedUser)
      expectedUser expectedUser (by decide) rfl rfl rfl⟩

/-- C6: when validation, the store lookup and the password verification all
succeed but the Token Issuer fails, authenticate returns the opaque
StorageError server fault and no token. -/
theorem authenticate_issuer_failure_server_fault :
    ∀ (findByEmail : String → LookupResult) (issue : String → IssueResult)
      (u stored : User),
      validateForLogin u = [] →
      findByEmail u.email = LookupResult.found stored →
      verify stored.hashedPassword u.password = true →
      issue stored.id = IssueResult.failure →
      (authenticate findByEmail issue u).1 = Except.error ServiceError.storage ∧
      classify ServiceError.storage = FaultClass.server := by
  intro findByEmail issue u stored hval hfb hver hiss
  refine ⟨?_, rfl⟩
  simp [authenticate, hval, hfb, hver, hiss]

/-- Witness for authenticate_issuer_failure_server_fault at the second case
of TestUserLoginServiceError: the store knows the fixture user, the password
matches, the issuer fails. -/
theorem authenticate_issuer_failure_server_fault_witness :
    validateForLogin expectedUser = [] ∧
    verify (hashPassword "t3$T123") expectedUser.password = true ∧
    ((authenticate
        (fun _ => LookupResult.found
          { id := "user-1", username := "test", email := "test@test.com",
            password := "", hashedPassword := hashPassword "t3$T123" })
        (fun _ => IssueResult.failure) expectedUser).1 =
      Except.error ServiceError.storage ∧
      classify ServiceError.storage = FaultClass.server) :=
  ⟨by decide, by decide,
    authenticate_issuer_failure_server_fault
      (fun _ => LookupResult.found
        { id := "user-1", username := "test", email := "test@test.com",
          password := "", hashedPassword := hashPassword "t3$T123" })
      (fun _ => IssueResult.failure) expectedUser
      { id := "user-1", username := "test", email := "test@test.com",
        password := "", hashedPassword := hashPassword "t3$T123" }
      (by decide) rfl (by decide) rfl⟩

/-- C7: when validation, the store lookup and the password verification all
succeed and the Token Issuer answers with a non-empty token, authenticate
succeeds with exactly that token; the success payload (models.UserResponse)
carries the token and nothing else, in particular no password material. -/
theorem authenticate_success_returns_token :
    ∀ (findByEmail : String → LookupResult) (issue : String → IssueResult)
      (u stored : User) (tok : String),
      validateForLogin u = [] →
      findByEmail u.email = LookupResult.found stored →
      verify stored.hashedPassword u.password = true →
      issue stored.id = IssueResult.ok tok →
      tok ≠ "" →
      (authenticate findByEmail issue u).1 = Except.ok tok ∧
      tok ≠ "" ∧ (UserResponse.mk tok).token = tok := by
  intro findByEmail issue u stored tok hval hfb hver hiss htok
  refine ⟨?_, htok, rfl⟩
  simp [authenticate, hval, hfb, hver, hiss]

/-- Witness for authenticate_success_returns_token at the scenario of
TestUserLogin: the issuer answers with the test token my_test_token. -/
theorem authenticate_success_returns_token_witness :
    validateForLogin expectedUser = [] ∧
    verify (hashPassword "t3$T123") expectedUser.password = true ∧
    ("my_test_token" : String) ≠ "" ∧
    ((authenticate
        (fun _ => LookupResult.found
          { id := "user-1", username := "test", email := "test@test.com",
            password := "", hashedPassword := hashPassword "t3$T123" })
        (fun _ => IssueResult.ok "my_test_token") expectedUser).1 =
      Except.ok "my_test_token" ∧
      ("my_test_token" : String) ≠ "" ∧
      (UserResponse.mk "my_test_token").token = "my_test_token") :=
  ⟨by decide, by decide, by decide,
    authenticate_success_returns_token
      (fun _ => LookupResult.found
        { id := "user-1", username := "test", email := "test@test.com",
          password := "", hashedPassword := hashPassword "t3$T123" })
      (fun _ => IssueResult.ok "my_test_token") expectedUser
      { id := "user-1", username := "test", email := "test@test.com",
        password := "", hashedPassword := hashPassword "t3$T123" }
      "my_test_token" (by decide) rfl (by decide) rfl (by decide)⟩

/-- C8: verifying a plaintext against its own hash always succeeds; verifying
a different plaintext against that hash always fails; and a missing (empty)
hash also verifies to false — in every case the answer is a Bool, so no
exception distinguishes a mismatch from a missing hash. -/
theorem hasher_roundtrip :
    ∀ p q : String, p ≠ q →
      verify (hashPassword p) p = true ∧
      verify (hashPassword p) q = false ∧
      verify "" p = false ∧
      verify "" q = false := by
  intro p q hpq
  refine ⟨?_, ?_, ?_, ?_⟩
  · exact beq_self_eq_true (hashPassword p)
  · unfold verify
    rw [beq_eq_false_iff_ne]
    intro hc
    exact hpq (hashPassword_injective hc)
  · unfold verify
    rw [beq_eq_false_iff_ne]
    intro hc
    exact hashPassword_ne_empty p hc.symm
  · unfold verify
    rw [beq_eq_false_iff_ne]
    intro hc
    exact hashPassword_ne_empty q hc.symm

/-- Witness for hasher_roundtrip at the fixture password of the server tests
and a different candidate plaintext. -/
theorem hasher_roundtrip_witness :
    ("t3$T123" : String) ≠ "0ther" ∧
    (verify (hashPassword "t3$T123") "t3$T123" = true ∧
      verify (hashPassword "t3$T123") "0ther" = false ∧
      verify "" "t3$T123" = false ∧
      verify "" "0ther" = false) :=
  ⟨by decide, hasher_roundtrip "t3$T123" "0ther" (by decide)⟩

/-- C10: if opening the database connection fails, InitFromDirectory returns
that error unchanged and goose.Run is never invoked (the migration log is
empty, so the migration step runs only after a successful connection), and
Init behaves identically to InitFromDirectory with the ./sql directory. -/
theorem initFromDirectory_connection_failure :
    ∀ {Opts DBConn E : Type} (newDB : Opts → Except E DBConn)
      (gooseRun : String → DBConn → String → Option E)
      (opts : Opts) (sqlDirectory : String) (e : E),
      newDB opts = Except.error e →
      InitFromDirectory newDB gooseRun opts sqlDirectory = (some e, []) ∧
      Init newDB gooseRun opts = InitFromDirectory newDB gooseRun opts "./sql" := by
  intro Opts DBConn E newDB gooseRun opts sqlDirectory e h
  refine ⟨?_, rfl⟩
  simp [InitFromDirectory, h]

/-- Witness for initFromDirectory_connection_failure with a connection
opener that always fails. -/
theorem initFromDirectory_connection_failure_witness :
    (fun _ : Unit => (Except.error "no connection" : Except String Unit)) () =
      Except.error "no connection" ∧
    (InitFromDirectory (fun _ : Unit => (Except.error "no connection" : Except String Unit))
        (fun _ _ _ => none) () "./sql" = (some "no connection", []) ∧
      Init (fun _ : Unit => (Except.error "no connection" : Except String Unit))
          (fun _ _ _ => none) () =
        InitFromDirectory (fun _ : Unit => (Except.error "no connection" : Except String Unit))
          (fun _ _ _ => none) () "./sql") :=
  ⟨rfl,
    initFromDirectory_connection_failure
      (fun _ : Unit => (Except.error "no connection" : Except String Unit))
      (fun _ _ _ => none) () "./sql" "no connection" rfl⟩
